import Mathlib

/-!
Shallow embedding of the frame-acquisition / calibration subsystem of the
repository (src/code/camera/Camera.py and src/code/camera/config.py).

The camera object of class RealSenseCamera is modelled as an explicit state
record; the external collaborators (the librealsense pipeline, OpenCV, the
numpy text serialisation) are modelled as oracles or as explicit functions.
Rational numbers stand for the floating-point values: the numeric claims in
scope are about data flow (what is stored, read and written where), not about
rounding, and np.savetxt with its default format writes enough digits that a
float64 survives the text round trip exactly.

File system effects are explicit: a file system is a map from path strings to
optional file contents, a file content being the rows of rational numbers a
flat numeric text file holds.  Every run of a camera method also produces a
trace of externally visible events (operator prompt, driver waits, frame
extraction, file reads and writes), which the claims about ordering and about
which files are touched are stated over.
-/

namespace Camera

abbrev Q := Rat

/-- Rows of numbers, the content of a flat numeric text file
(what np.savetxt writes and np.loadtxt reads). -/
abbrev FileContent := List (List Q)

/-- A file system: a map from paths to file contents, `none` meaning the
path does not exist or is unreadable. -/
abbrev FS := String → Option FileContent

/-- Writing a file: `open(path, mode w)` followed by a full write replaces
whatever was stored at that path. -/
def fsWrite (fs : FS) (p : String) (c : FileContent) : FS :=
  fun q => if q = p then some c else fs q

/-- A numpy array as far as this subsystem distinguishes them:
one dimensional (a vector) or two dimensional (a matrix). -/
inductive NpArr where
  | a1 : List Q → NpArr
  | a2 : List (List Q) → NpArr
deriving DecidableEq, Repr

/-- np.savetxt: a 1-D array is written one value per row; a 2-D array is
written row by row. -/
def np_savetxt : NpArr → FileContent
  | NpArr.a1 v => v.map (fun x => [x])
  | NpArr.a2 m => m

/-- np.loadtxt on the rows read from a file.  A ragged or empty table raises
(`none`); a single row or a single column is squeezed to a 1-D array;
anything else is a 2-D array.  No shape beyond rectangularity is checked. -/
def loadtxtParse (rows : FileContent) : Option NpArr :=
  match rows with
  | [] => none
  | r0 :: rest =>
    if rest.all (fun r => r.length = r0.length) then
      if rest = [] then some (NpArr.a1 r0)
      else if r0.length = 1 then
        some (NpArr.a1 ((r0 :: rest).map (fun r => r.headD 0)))
      else some (NpArr.a2 (r0 :: rest))
    else none

/-- The error outcomes the camera methods can raise, one constructor per
raise site (Python exception) reachable in Camera.py, plus the error the
vendor pipeline itself raises on a wrong start/stop call sequence. -/
inductive CamErr where
  /-- ValueError at Camera.py line 76: intrinsics not set, call start_stream first. -/
  | notStreaming
  /-- ValueError at line 78: invalid mode string. -/
  | invalidMode
  /-- ValueError at line 95: load mode without both file paths. -/
  | missingFilePaths
  /-- OSError raised inside np.loadtxt when the file at the path is absent. -/
  | calibrationFileMissing (p : String)
  /-- ValueError raised inside np.loadtxt when the text is not a rectangular numeric table. -/
  | loadtxtValueError (p : String)
  /-- ValueError at line 102: image mode without a file path. -/
  | missingImagePath
  /-- ValueError at line 106: cv2.imread returned None. -/
  | imageLoadError (p : String)
  /-- ValueError at line 114: no color frame could be captured. -/
  | noFrameAvailable
  /-- RuntimeError at line 123: checkerboard corners not found. -/
  | targetNotFound
  /-- RuntimeError from librealsense: pipeline start while started, or stop while stopped. -/
  | pipelineWrongCallSequence
deriving DecidableEq, Repr

/-- Externally visible events of one method run, in order. -/
inductive Event where
  /-- The blocking input() prompt of live mode (line 111). -/
  | promptConfirm
  /-- One pipeline.wait_for_frames() call (line 150). -/
  | waitFrames
  /-- get_color_frame() on a frameset (line 153). -/
  | extractColor
  /-- get_depth_frame() on a frameset (line 160). -/
  | extractDepth
  /-- cv2.imread of the given path (line 104). -/
  | readImage (p : String)
  /-- np.loadtxt of the given path (lines 96 and 97). -/
  | readFile (p : String)
  /-- open + np.savetxt of the given path (lines 133 to 136). -/
  | writeFile (p : String)
deriving DecidableEq, Repr

/-- Whether an event writes to the file system. -/
def Event.isWrite : Event → Bool
  | Event.writeFile _ => true
  | _ => false

/-! ## Configuration constants (src/code/camera/config.py) -/

def WIDTH : Nat := 640
def HEIGHT : Nat := 480
def FPS : Nat := 30

/-- Inner corner grid of the checkerboard (config.py line 9). -/
def CHECKERBOARD_SIZE : Nat × Nat := (6, 9)

/-- Physical square size in meters (config.py line 10). -/
def SQUARE_SIZE_M : Q := 253 / 10000

/-- Fixed path the translation vector is persisted at (config.py line 13). -/
def CALIBRATION_T_MATRIX_FILEPATH : String :=
  "calibration/camera_translation_matrix.npy"

/-- Fixed path the rotation matrix is persisted at (config.py line 14). -/
def CALIBRATION_R_MATRIX_FILEPATH : String :=
  "calibration/camera_rotation_matrix.npy"

/-! ## The driver-reported intrinsics and the derived matrices -/

/-- Factory intrinsics as reported by the RealSense driver. -/
structure Intr where
  fx : Q
  fy : Q
  ppx : Q
  ppy : Q
  coeffs : List Q
deriving DecidableEq, Repr

/-- Camera matrix K built at Camera.py lines 82 to 86. -/
def kMatrixOf (i : Intr) : NpArr :=
  NpArr.a2 [[i.fx, 0, i.ppx], [0, i.fy, i.ppy], [0, 0, 1]]

/-- Distortion coefficient vector D built at line 88. -/
def dMatrixOf (i : Intr) : NpArr :=
  NpArr.a1 i.coeffs

/-! ## The vendor pipeline and the camera state -/

/-- The librealsense pipeline handle: whether it is streaming and how far
into the driver frame sequence it is.  The position indexes the framesets
wait_for_frames hands out in order. -/
structure Pipeline where
  started : Bool
  pos : Nat
deriving DecidableEq, Repr

/-- The mutable fields of a RealSenseCamera object (constructor lines 15 to 33).
Width, height and fps are configuration constants and carry no information. -/
structure CameraState where
  rs_intrinsics : Option Intr
  K_matrix : Option NpArr
  D_matrix : Option NpArr
  R_matrix : Option NpArr
  T_vector : Option NpArr
  pipeline : Pipeline
deriving DecidableEq, Repr

/-- A freshly constructed camera object: all matrices unset, pipeline not
started. -/
def initCamera : CameraState :=
  { rs_intrinsics := none, K_matrix := none, D_matrix := none
    R_matrix := none, T_vector := none
    pipeline := { started := false, pos := 0 } }

/-- The vendor pipeline start call.  librealsense raises RuntimeError
(wrong call sequence) when start is called on a pipeline that is already
streaming; the wrapper in Camera.py adds no guard around it. -/
def pipelineStartCall (p : Pipeline) : Except CamErr Pipeline :=
  if p.started then Except.error CamErr.pipelineWrongCallSequence
  else Except.ok { p with started := true }

/-- The vendor pipeline stop call.  librealsense raises RuntimeError when
stop is called on a pipeline that was not started. -/
def pipelineStopCall (p : Pipeline) : Except CamErr Pipeline :=
  if p.started then Except.ok { p with started := false }
  else Except.error CamErr.pipelineWrongCallSequence

/-- The driver environment: the intrinsics the depth stream profile reports
once streaming starts. -/
structure DriverEnv where
  reported : Intr

/-- RealSenseCamera.start_stream (lines 35 to 49): start the pipeline and
store the factory intrinsics of the depth profile. -/
def start_stream (drv : DriverEnv) (s : CameraState) : Except CamErr CameraState :=
  match pipelineStartCall s.pipeline with
  | Except.error e => Except.error e
  | Except.ok p =>
      Except.ok { s with pipeline := p, rs_intrinsics := some drv.reported }

/-- RealSenseCamera.stop_stream (lines 51 to 54): stop the pipeline. -/
def stop_stream (s : CameraState) : Except CamErr CameraState :=
  match pipelineStopCall s.pipeline with
  | Except.error e => Except.error e
  | Except.ok p => Except.ok { s with pipeline := p }

/-! ## Frames and get_live_frame -/

/-- One synchronized frameset as delivered by wait_for_frames; either
stream may be absent.  Frames themselves are opaque handles. -/
structure Frameset where
  colorFrame : Option Nat
  depthFrame : Option Nat
deriving DecidableEq, Repr

/-- The frame source: the k-th frameset the driver delivers. -/
structure FrameEnv where
  framesets : Nat → Frameset

inductive RsStream where
  | color
  | depth
deriving DecidableEq, Repr

/-- Result of one get_live_frame call: the frame (if available), the new
pipeline position, and the events of the call. -/
structure FrameResult where
  frame : Option Nat
  pos : Nat
  events : List Event
deriving Repr

/-- RealSenseCamera.get_live_frame (lines 139 to 164).  The body first runs
`for i in range(10): frames = self.pipeline.wait_for_frames()`: ten blocking
waits whose last frameset overwrites the previous nine, so the frameset at
position pos + 9 is the one used and the position advances by ten.  Then the
requested stream is extracted from that frameset, `none` when absent. -/
def get_live_frame (fe : FrameEnv) (pos : Nat) (stream : RsStream) : FrameResult :=
  let frames := fe.framesets (pos + 9)
  let evs := List.replicate 10 Event.waitFrames
  match stream with
  | RsStream.color => ⟨frames.colorFrame, pos + 10, evs ++ [Event.extractColor]⟩
  | RsStream.depth => ⟨frames.depthFrame, pos + 10, evs ++ [Event.extractDepth]⟩

/-! ## OpenCV oracle and the shared calibration pipeline -/

/-- A 3-vector, the shape cv2.solvePnP guarantees for rvec and tvec. -/
structure Vec3 where
  x : Q
  y : Q
  z : Q
deriving DecidableEq, Repr

def Vec3.toList (v : Vec3) : List Q := [v.x, v.y, v.z]

/-- A 3 by 3 matrix, the shape cv2.Rodrigues guarantees for R. -/
structure Mat3 where
  row0 : Vec3
  row1 : Vec3
  row2 : Vec3
deriving DecidableEq, Repr

/-- Row-major rows of a 3 by 3 matrix. -/
def Mat3.rows (m : Mat3) : List (List Q) :=
  [m.row0.toList, m.row1.toList, m.row2.toList]

/-- The OpenCV functions Camera.py calls, as an oracle.  Images, grayscale
images and corner arrays are opaque handles; the outputs of solvePnP and
Rodrigues carry their documented shapes (tvec is a 3 by 1 column the code
flattens to 3 values; Rodrigues yields a 3 by 3 matrix). -/
structure CvEnv where
  imread : String → Option Nat
  cvtColor : Nat → Nat
  findChessboardCorners : Nat → Option Nat
  cornerSubPix : Nat → Nat → Nat
  solvePnP : NpArr → Nat → NpArr → NpArr → Vec3 × Vec3
  rodrigues : Vec3 → Mat3

/-- The object points built at Camera.py lines 117 to 119:
np.mgrid over the 6 by 9 grid, transposed and reshaped so the points run
j = 0..8 outer, i = 0..5 inner, each scaled by the square size, z = 0. -/
def objp : NpArr :=
  NpArr.a2 ((List.range CHECKERBOARD_SIZE.2).flatMap (fun j =>
    (List.range CHECKERBOARD_SIZE.1).map (fun i =>
      [(i : Q) * SQUARE_SIZE_M, (j : Q) * SQUARE_SIZE_M, 0])))

/-- Result of one setup_matrices run, with Python exception semantics:
`raised = some e` means the exception e propagated, and the state and file
system show every mutation performed before the raise. -/
structure SMResult where
  raised : Option CamErr
  state : CameraState
  fs : FS
  events : List Event

/-- Lines 93 to 98, the load branch: require both paths, np.loadtxt the T
file then the R file, storing each as soon as it is read, and return.
Nothing is written. -/
def loadBranch (fs : FS) (s1 : CameraState)
    (file_path_T file_path_R : Option String) : SMResult :=
  match file_path_T, file_path_R with
  | some pT, some pR =>
    match fs pT with
    | none => ⟨some (CamErr.calibrationFileMissing pT), s1, fs, [Event.readFile pT]⟩
    | some cT =>
      match loadtxtParse cT with
      | none => ⟨some (CamErr.loadtxtValueError pT), s1, fs, [Event.readFile pT]⟩
      | some tArr =>
        let s2 := { s1 with T_vector := some tArr }
        match fs pR with
        | none => ⟨some (CamErr.calibrationFileMissing pR), s2, fs,
                   [Event.readFile pT, Event.readFile pR]⟩
        | some cR =>
          match loadtxtParse cR with
          | none => ⟨some (CamErr.loadtxtValueError pR), s2, fs,
                     [Event.readFile pT, Event.readFile pR]⟩
          | some rArr => ⟨none, { s2 with R_matrix := some rArr }, fs,
                          [Event.readFile pT, Event.readFile pR]⟩
  | _, _ => ⟨some CamErr.missingFilePaths, s1, fs, []⟩

/-- Lines 117 to 137, the pipeline shared by image and live mode once a
grayscale image is in hand: find the checkerboard corners (RuntimeError when
not found), refine them with cornerSubPix (30 iterations, 0.001 epsilon),
solve PnP against objp with K and D, convert rvec with Rodrigues, flatten
tvec, store R and T on the object, and persist both to the two configured
paths, T first then R, each opened for writing (overwrite). -/
def sharedPipeline (cv : CvEnv) (fs : FS) (s1 : CameraState)
    (k d : NpArr) (gray : Nat) (evs : List Event) : SMResult :=
  match cv.findChessboardCorners gray with
  | none => ⟨some CamErr.targetNotFound, s1, fs, evs⟩
  | some corners =>
    let refined := cv.cornerSubPix gray corners
    let pr := cv.solvePnP objp refined k d
    let rmat := cv.rodrigues pr.1
    let rArr := NpArr.a2 rmat.rows
    let tArr := NpArr.a1 pr.2.toList
    let s2 := { s1 with R_matrix := some rArr, T_vector := some tArr }
    let fs1 := fsWrite fs CALIBRATION_T_MATRIX_FILEPATH (np_savetxt tArr)
    let fs2 := fsWrite fs1 CALIBRATION_R_MATRIX_FILEPATH (np_savetxt rArr)
    ⟨none, s2, fs2,
     evs ++ [Event.writeFile CALIBRATION_T_MATRIX_FILEPATH,
             Event.writeFile CALIBRATION_R_MATRIX_FILEPATH]⟩

/-- RealSenseCamera.setup_matrices (lines 56 to 137).  Raises notStreaming
when the intrinsics are unset (line 76), invalidMode for an unknown mode
string (line 78), then unconditionally overwrites K_matrix and D_matrix from
the intrinsics (lines 82 to 88) before dispatching on the mode:
load (lines 93 to 98), image (lines 100 to 107 then the shared pipeline),
live (lines 109 to 115: the blocking input() prompt, then one
get_live_frame on the color stream, then the shared pipeline). -/
def setup_matrices (cv : CvEnv) (fe : FrameEnv) (fs : FS) (s : CameraState)
    (mode : String) (file_path_T file_path_R file_path_image : Option String) :
    SMResult :=
  match s.rs_intrinsics with
  | none => ⟨some CamErr.notStreaming, s, fs, []⟩
  | some intr =>
    if mode ≠ "live" ∧ mode ≠ "load" ∧ mode ≠ "image" then
      ⟨some CamErr.invalidMode, s, fs, []⟩
    else
      let s1 := { s with K_matrix := some (kMatrixOf intr)
                         D_matrix := some (dMatrixOf intr) }
      if mode = "load" then
        loadBranch fs s1 file_path_T file_path_R
      else if mode = "image" then
        match file_path_image with
        | none => ⟨some CamErr.missingImagePath, s1, fs, []⟩
        | some pI =>
          match cv.imread pI with
          | none => ⟨some (CamErr.imageLoadError pI), s1, fs, [Event.readImage pI]⟩
          | some img =>
            sharedPipeline cv fs s1 (kMatrixOf intr) (dMatrixOf intr)
              (cv.cvtColor img) [Event.readImage pI]
      else
        let fr := get_live_frame fe s.pipeline.pos RsStream.color
        let s1p := { s1 with pipeline := { s1.pipeline with pos := fr.pos } }
        match fr.frame with
        | none => ⟨some CamErr.noFrameAvailable, s1p, fs,
                   Event.promptConfirm :: fr.events⟩
        | some img =>
          sharedPipeline cv fs s1p (kMatrixOf intr) (dMatrixOf intr)
            (cv.cvtColor img) (Event.promptConfirm :: fr.events)

/-! ## Concrete fixtures used by witnesses and counterexamples -/

/-- Sample driver-reported intrinsics. -/
def intrSample : Intr :=
  { fx := 600, fy := 600, ppx := 320, ppy := 240, coeffs := [0, 0, 0, 0, 0] }

def drvSample : DriverEnv := { reported := intrSample }

/-- A camera that has started streaming: intrinsics reported, pipeline on. -/
def camReady : CameraState :=
  { initCamera with rs_intrinsics := some intrSample
                    pipeline := { started := true, pos := 0 } }

/-- OpenCV oracle on which corner detection always succeeds. -/
def cvFound : CvEnv :=
  { imread := fun _ => some 0
    cvtColor := fun g => g + 100
    findChessboardCorners := fun _ => some 1
    cornerSubPix := fun _ c => c
    solvePnP := fun _ _ _ _ => (⟨1, 2, 3⟩, ⟨4, 5, 6⟩)
    rodrigues := fun _ => ⟨⟨1, 0, 0⟩, ⟨0, 1, 0⟩, ⟨0, 0, 1⟩⟩ }

/-- OpenCV oracle on which corner detection always fails. -/
def cvNotFound : CvEnv :=
  { cvFound with findChessboardCorners := fun _ => none }

/-- Frame source whose k-th frameset carries the handle k on both streams. -/
def feIndexed : FrameEnv := { framesets := fun k => ⟨some k, some k⟩ }

/-- Frame source that never has a frame. -/
def feEmpty : FrameEnv := { framesets := fun _ => ⟨none, none⟩ }

/-- The empty file system. -/
def fsEmpty : FS := fun _ => none

/-! ## Helper lemmas about the two branch bodies -/

theorem loadBranch_fs_eq (fs : FS) (s1 : CameraState) (a b : Option String) :
    (loadBranch fs s1 a b).fs = fs := by
  unfold loadBranch
  repeat' split
  all_goals rfl

theorem loadBranch_no_write (fs : FS) (s1 : CameraState) (a b : Option String) :
    ∀ e ∈ (loadBranch fs s1 a b).events, e.isWrite = false := by
  unfold loadBranch
  repeat' split
  all_goals intro e he
  all_goals simp at he
  all_goals first
    | (subst he; rfl)
    | (rcases he with he | he <;> subst he <;> rfl)

theorem loadBranch_KD (fs : FS) (s1 : CameraState) (a b : Option String) :
    (loadBranch fs s1 a b).state.K_matrix = s1.K_matrix ∧
    (loadBranch fs s1 a b).state.D_matrix = s1.D_matrix := by
  unfold loadBranch
  repeat' split
  all_goals exact ⟨rfl, rfl⟩

theorem sharedPipeline_KD (cv : CvEnv) (fs : FS) (s1 : CameraState)
    (k d : NpArr) (gray : Nat) (evs : List Event) :
    (sharedPipeline cv fs s1 k d gray evs).state.K_matrix = s1.K_matrix ∧
    (sharedPipeline cv fs s1 k d gray evs).state.D_matrix = s1.D_matrix := by
  unfold sharedPipeline
  split
  all_goals exact ⟨rfl, rfl⟩

/-- The state after the unconditional intrinsic assignment of lines 82 to 88. -/
def withKD (s : CameraState) (intr : Intr) : CameraState :=
  { s with rs_intrinsics := some intr
           K_matrix := some (kMatrixOf intr)
           D_matrix := some (dMatrixOf intr) }

/-- withKD, with the pipeline position advanced by the ten waits of the
get_live_frame call of live mode. -/
def withKDpos (s : CameraState) (intr : Intr) : CameraState :=
  { withKD s intr with pipeline := { s.pipeline with pos := s.pipeline.pos + 10 } }

theorem dispatch_load (cv : CvEnv) (fe : FrameEnv) (fs : FS) (s : CameraState)
    (intr : Intr) (pT pR pI : Option String) :
    setup_matrices cv fe fs { s with rs_intrinsics := some intr } ("load") pT pR pI =
      loadBranch fs (withKD s intr) pT pR := by
  unfold setup_matrices withKD
  simp

theorem dispatch_image_noPath (cv : CvEnv) (fe : FrameEnv) (fs : FS) (s : CameraState)
    (intr : Intr) (pT pR : Option String) :
    setup_matrices cv fe fs { s with rs_intrinsics := some intr } ("image") pT pR none =
      ⟨some CamErr.missingImagePath, withKD s intr, fs, []⟩ := by
  unfold setup_matrices withKD
  simp

theorem dispatch_image_badRead (cv : CvEnv) (fe : FrameEnv) (fs : FS) (s : CameraState)
    (intr : Intr) (pT pR : Option String) (pI : String)
    (h : cv.imread pI = none) :
    setup_matrices cv fe fs { s with rs_intrinsics := some intr } ("image") pT pR (some pI) =
      ⟨some (CamErr.imageLoadError pI), withKD s intr, fs, [Event.readImage pI]⟩ := by
  unfold setup_matrices withKD
  simp [h]

theorem dispatch_image_ok (cv : CvEnv) (fe : FrameEnv) (fs : FS) (s : CameraState)
    (intr : Intr) (pT pR : Option String) (pI : String) (img : Nat)
    (h : cv.imread pI = some img) :
    setup_matrices cv fe fs { s with rs_intrinsics := some intr } ("image") pT pR (some pI) =
      sharedPipeline cv fs (withKD s intr) (kMatrixOf intr) (dMatrixOf intr)
        (cv.cvtColor img) [Event.readImage pI] := by
  unfold setup_matrices withKD
  simp [h]

theorem dispatch_live_noFrame (cv : CvEnv) (fe : FrameEnv) (fs : FS) (s : CameraState)
    (intr : Intr) (pT pR pI : Option String)
    (h : (fe.framesets (s.pipeline.pos + 9)).colorFrame = none) :
    setup_matrices cv fe fs { s with rs_intrinsics := some intr } ("live") pT pR pI =
      ⟨some CamErr.noFrameAvailable, withKDpos s intr, fs,
       Event.promptConfirm ::
         (List.replicate 10 Event.waitFrames ++ [Event.extractColor])⟩ := by
  unfold setup_matrices withKDpos withKD get_live_frame
  simp [h]

theorem dispatch_live_ok (cv : CvEnv) (fe : FrameEnv) (fs : FS) (s : CameraState)
    (intr : Intr) (pT pR pI : Option String) (img : Nat)
    (h : (fe.framesets (s.pipeline.pos + 9)).colorFrame = some img) :
    setup_matrices cv fe fs { s with rs_intrinsics := some intr } ("live") pT pR pI =
      sharedPipeline cv fs (withKDpos s intr) (kMatrixOf intr) (dMatrixOf intr)
        (cv.cvtColor img)
        (Event.promptConfirm ::
          (List.replicate 10 Event.waitFrames ++ [Event.extractColor])) := by
  unfold setup_matrices withKDpos withKD get_live_frame
  simp [h]

/-! ## Claim theorems -/

/-- C7: in every calibration mode, invoking setup_matrices before the
session has started (no driver-reported intrinsics yet) raises the
not-streaming error and computes nothing: state, file system and event
trace are all untouched. -/
theorem setup_matrices_requires_streaming (cv : CvEnv) (fe : FrameEnv) (fs : FS)
    (s : CameraState) (mode : String) (pT pR pI : Option String) :
    setup_matrices cv fe fs { s with rs_intrinsics := none } mode pT pR pI =
      ⟨some CamErr.notStreaming, { s with rs_intrinsics := none }, fs, []⟩ := rfl

/-- C10: a load-mode setup_matrices call never writes to the file system:
the resulting file system is the input one, and no write event occurs. -/
theorem load_mode_never_writes (cv : CvEnv) (fe : FrameEnv) (fs : FS)
    (s : CameraState) (pT pR pI : Option String) :
    (setup_matrices cv fe fs s ("load") pT pR pI).fs = fs ∧
    ∀ e ∈ (setup_matrices cv fe fs s ("load") pT pR pI).events, e.isWrite = false := by
  unfold setup_matrices
  split
  · exact ⟨rfl, by intro e he; simp at he⟩
  · refine ⟨loadBranch_fs_eq .., ?_⟩
    intro e he
    exact loadBranch_no_write fs _ pT pR e he

/-- The intrinsic fields of the state left by a setup_matrices run hold the
matrices derived from the driver intrinsics (the property C9 asserts for
every mode and every outcome, success or raised exception). -/
def kdOverwritten (cv : CvEnv) (fe : FrameEnv) (fs : FS) (s : CameraState)
    (intr : Intr) (mode : String) (pT pR pI : Option String) : Prop :=
  (setup_matrices cv fe fs { s with rs_intrinsics := some intr } mode pT pR pI).state.K_matrix
    = some (kMatrixOf intr) ∧
  (setup_matrices cv fe fs { s with rs_intrinsics := some intr } mode pT pR pI).state.D_matrix
    = some (dMatrixOf intr)

/-- C9: in each of the three modes, once the streaming precondition holds,
setup_matrices assigns K and D from the driver intrinsics before any
extrinsic processing, so the session intrinsic state is overwritten in every
outcome, also when the extrinsic step raises (missing path, unreadable
image or file, frame unavailable, corners not found): the operation is not
atomic on session state under error. -/
theorem intrinsics_assigned_before_extrinsics (cv : CvEnv) (fe : FrameEnv)
    (fs : FS) (s : CameraState) (intr : Intr) (pT pR pI : Option String) :
    kdOverwritten cv fe fs s intr ("live") pT pR pI ∧
    kdOverwritten cv fe fs s intr ("load") pT pR pI ∧
    kdOverwritten cv fe fs s intr ("image") pT pR pI := by
  refine ⟨?_, ?_, ?_⟩
  · unfold kdOverwritten
    rcases hc : (fe.framesets (s.pipeline.pos + 9)).colorFrame with _ | img
    · rw [dispatch_live_noFrame cv fe fs s intr pT pR pI hc]
      exact ⟨rfl, rfl⟩
    · rw [dispatch_live_ok cv fe fs s intr pT pR pI img hc]
      exact sharedPipeline_KD ..
  · unfold kdOverwritten
    rw [dispatch_load cv fe fs s intr pT pR pI]
    exact loadBranch_KD ..
  · unfold kdOverwritten
    rcases pI with _ | p
    · rw [dispatch_image_noPath cv fe fs s intr pT pR]
      exact ⟨rfl, rfl⟩
    · rcases hr : cv.imread p with _ | img
      · rw [dispatch_image_badRead cv fe fs s intr pT pR p hr]
        exact ⟨rfl, rfl⟩
      · rw [dispatch_image_ok cv fe fs s intr pT pR p img hr]
        exact sharedPipeline_KD ..

/-- C1: in image mode, whenever the checkerboard image loads but no corner
grid is detected in it, setup_matrices raises the target-not-found error
and the file system is returned unmodified, so both persisted calibration
files are untouched. -/
theorem image_mode_target_not_found (cv : CvEnv) (fe : FrameEnv) (fs : FS)
    (s : CameraState) (intr : Intr) (pT pR : Option String) (pI : String) (img : Nat)
    (h1 : cv.imread pI = some img)
    (h2 : cv.findChessboardCorners (cv.cvtColor img) = none) :
    setup_matrices cv fe fs { s with rs_intrinsics := some intr } ("image") pT pR (some pI) =
      ⟨some CamErr.targetNotFound, withKD s intr, fs, [Event.readImage pI]⟩ := by
  rw [dispatch_image_ok cv fe fs s intr pT pR pI img h1]
  unfold sharedPipeline
  rw [h2]

/-- Witness for C1 at a concrete input: a ready camera, an oracle whose
corner detection fails on every image, the empty file system. -/
theorem image_mode_target_not_found_witness :
    setup_matrices cvNotFound feIndexed fsEmpty
        { camReady with rs_intrinsics := some intrSample } ("image") none none
        (some ("board.png")) =
      ⟨some CamErr.targetNotFound, withKD camReady intrSample, fsEmpty,
       [Event.readImage ("board.png")]⟩ :=
  image_mode_target_not_found cvNotFound feIndexed fsEmpty camReady intrSample
    none none ("board.png") 0 rfl rfl

/-- C6: a live-mode setup_matrices run opens with the blocking operator
confirmation prompt (the first event of its trace), extracts exactly one
color-stream snapshot, and raises the no-frame-available error when the
color frame of the frameset in hand is absent at that moment. -/
theorem live_mode_gate_and_single_snapshot (cv : CvEnv) (fe : FrameEnv) (fs : FS)
    (s : CameraState) (intr : Intr) (pT pR pI : Option String) :
    (setup_matrices cv fe fs { s with rs_intrinsics := some intr } ("live") pT pR pI).events.head?
      = some Event.promptConfirm ∧
    (setup_matrices cv fe fs { s with rs_intrinsics := some intr } ("live") pT pR pI).events.count
      Event.extractColor = 1 ∧
    ((fe.framesets (s.pipeline.pos + 9)).colorFrame = none →
      setup_matrices cv fe fs { s with rs_intrinsics := some intr } ("live") pT pR pI =
        ⟨some CamErr.noFrameAvailable, withKDpos s intr, fs,
         Event.promptConfirm ::
           (List.replicate 10 Event.waitFrames ++ [Event.extractColor])⟩) := by
  rcases hc : (fe.framesets (s.pipeline.pos + 9)).colorFrame with _ | img
  · rw [dispatch_live_noFrame cv fe fs s intr pT pR pI hc]
    refine ⟨rfl, ?_, fun _ => rfl⟩
    show (Event.promptConfirm ::
      (List.replicate 10 Event.waitFrames ++ [Event.extractColor])).count
        Event.extractColor = 1
    decide
  · rw [dispatch_live_ok cv fe fs s intr pT pR pI img hc]
    unfold sharedPipeline
    rcases hcc : cv.findChessboardCorners (cv.cvtColor img) with _ | corners
    · refine ⟨rfl, ?_, fun h => Option.noConfusion h⟩
      show (Event.promptConfirm ::
        (List.replicate 10 Event.waitFrames ++ [Event.extractColor])).count
          Event.extractColor = 1
      decide
    · refine ⟨rfl, ?_, fun h => Option.noConfusion h⟩
      show ((Event.promptConfirm ::
        (List.replicate 10 Event.waitFrames ++ [Event.extractColor])) ++
        [Event.writeFile CALIBRATION_T_MATRIX_FILEPATH,
         Event.writeFile CALIBRATION_R_MATRIX_FILEPATH]).count
          Event.extractColor = 1
      decide

/-- Witness for C6 at a concrete input: a ready camera and a frame source
that never delivers a frame. -/
theorem live_mode_gate_and_single_snapshot_witness :
    (setup_matrices cvFound feEmpty fsEmpty
        { camReady with rs_intrinsics := some intrSample } ("live") none none none).events.head?
      = some Event.promptConfirm ∧
    (setup_matrices cvFound feEmpty fsEmpty
        { camReady with rs_intrinsics := some intrSample } ("live") none none none).events.count
      Event.extractColor = 1 ∧
    setup_matrices cvFound feEmpty fsEmpty
        { camReady with rs_intrinsics := some intrSample } ("live") none none none =
      ⟨some CamErr.noFrameAvailable, withKDpos camReady intrSample, fsEmpty,
       Event.promptConfirm ::
         (List.replicate 10 Event.waitFrames ++ [Event.extractColor])⟩ :=
  ⟨(live_mode_gate_and_single_snapshot cvFound feEmpty fsEmpty camReady intrSample
      none none none).1,
   (live_mode_gate_and_single_snapshot cvFound feEmpty fsEmpty camReady intrSample
      none none none).2.1,
   (live_mode_gate_and_single_snapshot cvFound feEmpty fsEmpty camReady intrSample
      none none none).2.2 rfl⟩

/-- C4 counterexample: the warm-up discard is not performed once per stream
start.  On the indexed frame source, a first color request from position 0
(the supposed warm-up) is followed by a second request that again performs
ten waits, discards the nine framesets 10 .. 18 and hands out frameset 19 —
a frame requested after the warm-up IS preceded by further discards, and
stream start itself discards nothing. -/
theorem warmup_once_counterexample :
    (get_live_frame feIndexed 0 RsStream.color).pos = 10 ∧
    (get_live_frame feIndexed 10 RsStream.color).events.count Event.waitFrames = 10 ∧
    (get_live_frame feIndexed 10 RsStream.color).frame = some 19 ∧
    ¬ (get_live_frame feIndexed 10 RsStream.color).events.count Event.waitFrames ≤ 1 := by
  refine ⟨rfl, by decide, rfl, by decide⟩

/-- C4 amended: the fixed ten-frame flush is performed by every
get_live_frame call, not once per stream start: each call waits for ten
framesets, uses only the last one (so the first nine are discarded), and
advances the stream position by ten. -/
theorem get_live_frame_flushes_every_call (fe : FrameEnv) (pos : Nat) :
    get_live_frame fe pos RsStream.color =
      ⟨(fe.framesets (pos + 9)).colorFrame, pos + 10,
       List.replicate 10 Event.waitFrames ++ [Event.extractColor]⟩ := rfl

/-- C8 counterexample: on a freshly constructed camera, start_stream
succeeds once, but a second start_stream raises the wrong-call-sequence
error of the vendor pipeline, and stop_stream on the non-running camera
raises the same error: neither call is a no-op. -/
theorem start_stop_noop_counterexample :
    start_stream drvSample initCamera = Except.ok camReady ∧
    start_stream drvSample camReady = Except.error CamErr.pipelineWrongCallSequence ∧
    stop_stream initCamera = Except.error CamErr.pipelineWrongCallSequence := by
  exact ⟨rfl, rfl, rfl⟩

/-- C8 amended: the wrapper adds no idempotence guard: calling start while
the pipeline is already streaming propagates the vendor wrong-call-sequence
error, and calling stop while it is not streaming does the same; neither is
a silent no-op (though no duplicate acquisition is spawned, since the second
start fails before doing anything). -/
theorem start_stop_propagate_pipeline_errors (drv : DriverEnv) (s : CameraState) :
    (s.pipeline.started = true →
      start_stream drv s = Except.error CamErr.pipelineWrongCallSequence) ∧
    (s.pipeline.started = false →
      stop_stream s = Except.error CamErr.pipelineWrongCallSequence) := by
  constructor
  · intro h
    unfold start_stream pipelineStartCall
    rw [h]
    rfl
  · intro h
    unfold stop_stream pipelineStopCall
    rw [h]
    rfl

/-- Witness for the amended C8 at concrete inputs: the started camera
rejects start, the fresh camera rejects stop. -/
theorem start_stop_propagate_pipeline_errors_witness :
    start_stream drvSample camReady = Except.error CamErr.pipelineWrongCallSequence ∧
    stop_stream initCamera = Except.error CamErr.pipelineWrongCallSequence :=
  ⟨(start_stop_propagate_pipeline_errors drvSample camReady).1 rfl,
   (start_stop_propagate_pipeline_errors drvSample initCamera).2 rfl⟩

/-- Dispatch of load mode stated through a hypothesis on the intrinsics
field instead of a literal state update. -/
theorem dispatch_load_h (cv : CvEnv) (fe : FrameEnv) (fs : FS) (s : CameraState)
    (intr : Intr) (pT pR : String) (pI : Option String)
    (h : s.rs_intrinsics = some intr) :
    setup_matrices cv fe fs s ("load") (some pT) (some pR) pI =
      loadBranch fs { s with K_matrix := some (kMatrixOf intr)
                             D_matrix := some (dMatrixOf intr) } pT pR := by
  unfold setup_matrices
  rw [h]
  rfl

/-- A file system holding a four-value T file (wrong shape for a 3-vector)
and a well-shaped R file at the configured calibration paths. -/
def fsWrongShape : FS := fun p =>
  if p = CALIBRATION_T_MATRIX_FILEPATH then some [[1], [2], [3], [4]]
  else if p = CALIBRATION_R_MATRIX_FILEPATH then
    some [[1, 0, 0], [0, 1, 0], [0, 0, 1]]
  else none

/-- C5 counterexample: with a T file holding four values (T not 3 values),
a load-mode setup_matrices call does not fail: it succeeds and stores the
four-value vector, so malformed-shape content is accepted rather than
rejected. -/
theorem load_shape_counterexample :
    (setup_matrices cvFound feIndexed fsWrongShape camReady ("load")
        (some CALIBRATION_T_MATRIX_FILEPATH) (some CALIBRATION_R_MATRIX_FILEPATH)
        none).raised = none ∧
    (setup_matrices cvFound feIndexed fsWrongShape camReady ("load")
        (some CALIBRATION_T_MATRIX_FILEPATH) (some CALIBRATION_R_MATRIX_FILEPATH)
        none).state.T_vector = some (NpArr.a1 [1, 2, 3, 4]) :=
  ⟨rfl, rfl⟩

/-- C5 amended: in load mode, an absent or unreadable T file raises the
file-missing error of np.loadtxt, but no shape validation is performed:
any content np.loadtxt parses (whatever its shape, e.g. a T that is not
3 values) is accepted and stored as read. -/
theorem load_mode_missing_vs_malformed (cv : CvEnv) (fe : FrameEnv) (fs : FS)
    (s : CameraState) (intr : Intr) (pT pR : String) (pI : Option String)
    (h : s.rs_intrinsics = some intr) :
    (fs pT = none →
      (setup_matrices cv fe fs s ("load") (some pT) (some pR) pI).raised =
        some (CamErr.calibrationFileMissing pT)) ∧
    (∀ cT tArr cR rArr, fs pT = some cT → loadtxtParse cT = some tArr →
      fs pR = some cR → loadtxtParse cR = some rArr →
      (setup_matrices cv fe fs s ("load") (some pT) (some pR) pI).raised = none ∧
      (setup_matrices cv fe fs s ("load") (some pT) (some pR) pI).state.T_vector
        = some tArr ∧
      (setup_matrices cv fe fs s ("load") (some pT) (some pR) pI).state.R_matrix
        = some rArr) := by
  rw [dispatch_load_h cv fe fs s intr pT pR pI h]
  constructor
  · intro hT
    simp only [loadBranch, hT]
  · intro cT tArr cR rArr hT hpT hR hpR
    simp [loadBranch, hT, hpT, hR, hpR]

/-- Witness for the amended C5 at concrete inputs: the empty file system
raises file-missing; the wrong-shape file system is accepted. -/
theorem load_mode_missing_vs_malformed_witness :
    (setup_matrices cvFound feIndexed fsEmpty camReady ("load")
        (some CALIBRATION_T_MATRIX_FILEPATH) (some CALIBRATION_R_MATRIX_FILEPATH)
        none).raised =
      some (CamErr.calibrationFileMissing CALIBRATION_T_MATRIX_FILEPATH) ∧
    (setup_matrices cvFound feIndexed fsWrongShape camReady ("load")
        (some CALIBRATION_T_MATRIX_FILEPATH) (some CALIBRATION_R_MATRIX_FILEPATH)
        none).state.R_matrix = some (NpArr.a2 [[1, 0, 0], [0, 1, 0], [0, 0, 1]]) :=
  ⟨(load_mode_missing_vs_malformed cvFound feIndexed fsEmpty camReady intrSample
      CALIBRATION_T_MATRIX_FILEPATH CALIBRATION_R_MATRIX_FILEPATH none rfl).1 rfl,
   ((load_mode_missing_vs_malformed cvFound feIndexed fsWrongShape camReady intrSample
      CALIBRATION_T_MATRIX_FILEPATH CALIBRATION_R_MATRIX_FILEPATH none rfl).2
      [[1], [2], [3], [4]] (NpArr.a1 [1, 2, 3, 4])
      [[1, 0, 0], [0, 1, 0], [0, 0, 1]] (NpArr.a2 [[1, 0, 0], [0, 1, 0], [0, 0, 1]])
      rfl rfl rfl rfl).2.2⟩

/-- np.loadtxt reads back exactly the 3-vector np.savetxt wrote
(three rows of one value squeeze back to a 1-D array of three). -/
theorem loadtxt_savetxt_vec3 (v : Vec3) :
    loadtxtParse (np_savetxt (NpArr.a1 v.toList)) = some (NpArr.a1 v.toList) := rfl

/-- np.loadtxt reads back exactly the 3 by 3 matrix np.savetxt wrote. -/
theorem loadtxt_savetxt_mat3 (m : Mat3) :
    loadtxtParse (np_savetxt (NpArr.a2 m.rows)) = some (NpArr.a2 m.rows) := rfl

/-- C2: an extrinsic result produced and persisted by a successful
image-mode calibration is reproduced exactly (hence within any
floating-point tolerance such as 1e-9) by a subsequent load-mode
setup_matrices call on the two configured file paths: the load succeeds
and yields the very same T vector and R matrix. -/
theorem extrinsics_roundtrip (cv : CvEnv) (fe : FrameEnv) (fs : FS)
    (s : CameraState) (intr : Intr) (pI : String) (img corners : Nat)
    (h1 : cv.imread pI = some img)
    (h2 : cv.findChessboardCorners (cv.cvtColor img) = some corners) :
    (setup_matrices cv fe fs { s with rs_intrinsics := some intr }
        ("image") none none (some pI)).raised = none ∧
    (setup_matrices cv fe
        (setup_matrices cv fe fs { s with rs_intrinsics := some intr }
          ("image") none none (some pI)).fs
        (setup_matrices cv fe fs { s with rs_intrinsics := some intr }
          ("image") none none (some pI)).state
        ("load") (some CALIBRATION_T_MATRIX_FILEPATH)
        (some CALIBRATION_R_MATRIX_FILEPATH) none).raised = none ∧
    (setup_matrices cv fe
        (setup_matrices cv fe fs { s with rs_intrinsics := some intr }
          ("image") none none (some pI)).fs
        (setup_matrices cv fe fs { s with rs_intrinsics := some intr }
          ("image") none none (some pI)).state
        ("load") (some CALIBRATION_T_MATRIX_FILEPATH)
        (some CALIBRATION_R_MATRIX_FILEPATH) none).state.T_vector =
      (setup_matrices cv fe fs { s with rs_intrinsics := some intr }
        ("image") none none (some pI)).state.T_vector ∧
    (setup_matrices cv fe
        (setup_matrices cv fe fs { s with rs_intrinsics := some intr }
          ("image") none none (some pI)).fs
        (setup_matrices cv fe fs { s with rs_intrinsics := some intr }
          ("image") none none (some pI)).state
        ("load") (some CALIBRATION_T_MATRIX_FILEPATH)
        (some CALIBRATION_R_MATRIX_FILEPATH) none).state.R_matrix =
      (setup_matrices cv fe fs { s with rs_intrinsics := some intr }
        ("image") none none (some pI)).state.R_matrix := by
  rw [dispatch_image_ok cv fe fs s intr none none pI img h1]
  unfold sharedPipeline
  rw [h2]
  rw [dispatch_load_h cv fe _ _ intr CALIBRATION_T_MATRIX_FILEPATH
        CALIBRATION_R_MATRIX_FILEPATH none rfl]
  exact ⟨rfl, rfl, rfl, rfl⟩

/-- Witness for C2 at a concrete input: a ready camera, an oracle whose
detection succeeds, the empty file system; the loaded T equals the
persisted T. -/
theorem extrinsics_roundtrip_witness :
    (setup_matrices cvFound feIndexed
        (setup_matrices cvFound feIndexed fsEmpty
          { camReady with rs_intrinsics := some intrSample }
          ("image") none none (some ("board2.png"))).fs
        (setup_matrices cvFound feIndexed fsEmpty
          { camReady with rs_intrinsics := some intrSample }
          ("image") none none (some ("board2.png"))).state
        ("load") (some CALIBRATION_T_MATRIX_FILEPATH)
        (some CALIBRATION_R_MATRIX_FILEPATH) none).state.T_vector =
      (setup_matrices cvFound feIndexed fsEmpty
        { camReady with rs_intrinsics := some intrSample }
        ("image") none none (some ("board2.png"))).state.T_vector :=
  (extrinsics_roundtrip cvFound feIndexed fsEmpty camReady intrSample
    ("board2.png") 0 1 rfl rfl).2.2.1

/-- What C3 asserts of a calibration run started on file system fs: the run
succeeds, its write events are exactly one write of the configured T path
followed by one write of the configured R path, the T file now holds the
three values of the computed T vector (one per row), the R file holds the
computed 3 by 3 R matrix in row-major layout, any prior content at those two
fixed paths is overwritten, and every other path is untouched. -/
def persistsTwo (fs : FS) (r : SMResult) : Prop :=
  ∃ tv : Vec3, ∃ rm : Mat3,
    r.raised = none ∧
    r.state.T_vector = some (NpArr.a1 tv.toList) ∧
    r.state.R_matrix = some (NpArr.a2 rm.rows) ∧
    r.events.filter (fun e => e.isWrite) =
      [Event.writeFile CALIBRATION_T_MATRIX_FILEPATH,
       Event.writeFile CALIBRATION_R_MATRIX_FILEPATH] ∧
    r.fs CALIBRATION_T_MATRIX_FILEPATH = some [[tv.x], [tv.y], [tv.z]] ∧
    r.fs CALIBRATION_R_MATRIX_FILEPATH = some rm.rows ∧
    ∀ p, p ≠ CALIBRATION_T_MATRIX_FILEPATH → p ≠ CALIBRATION_R_MATRIX_FILEPATH →
      r.fs p = fs p

/-- C3: a successful image-mode calibration, and likewise a successful
live-mode calibration, writes exactly two flat numeric files, at the two
fixed configured paths (constants, not derived from session state): the T
file as 3 values and the R file as 9 values in row-major 3 by 3 layout,
overwriting whatever was there, and touching no other path. -/
theorem calibration_persists_exactly_two_files (cv : CvEnv) (fe : FrameEnv)
    (fs : FS) (s : CameraState) (intr : Intr) (pI : String)
    (img corners imgL cornersL : Nat)
    (h1 : cv.imread pI = some img)
    (h2 : cv.findChessboardCorners (cv.cvtColor img) = some corners)
    (h3 : (fe.framesets (s.pipeline.pos + 9)).colorFrame = some imgL)
    (h4 : cv.findChessboardCorners (cv.cvtColor imgL) = some cornersL) :
    persistsTwo fs (setup_matrices cv fe fs { s with rs_intrinsics := some intr }
      ("image") none none (some pI)) ∧
    persistsTwo fs (setup_matrices cv fe fs { s with rs_intrinsics := some intr }
      ("live") none none none) := by
  constructor
  · rw [dispatch_image_ok cv fe fs s intr none none pI img h1]
    unfold sharedPipeline
    rw [h2]
    refine ⟨_, _, rfl, rfl, rfl, rfl, rfl, rfl, ?_⟩
    intro p hpT hpR
    show fsWrite (fsWrite fs CALIBRATION_T_MATRIX_FILEPATH _)
      CALIBRATION_R_MATRIX_FILEPATH _ p = fs p
    unfold fsWrite
    rw [if_neg hpR, if_neg hpT]
  · rw [dispatch_live_ok cv fe fs s intr none none none imgL h3]
    unfold sharedPipeline
    rw [h4]
    refine ⟨_, _, rfl, rfl, rfl, rfl, rfl, rfl, ?_⟩
    intro p hpT hpR
    show fsWrite (fsWrite fs CALIBRATION_T_MATRIX_FILEPATH _)
      CALIBRATION_R_MATRIX_FILEPATH _ p = fs p
    unfold fsWrite
    rw [if_neg hpR, if_neg hpT]

/-- Witness for C3 at a concrete input: a ready camera, an oracle whose
detection always succeeds, an indexed frame source and the empty file
system. -/
theorem calibration_persists_exactly_two_files_witness :
    persistsTwo fsEmpty (setup_matrices cvFound feIndexed fsEmpty
      { camReady with rs_intrinsics := some intrSample }
      ("image") none none (some ("board3.png"))) ∧
    persistsTwo fsEmpty (setup_matrices cvFound feIndexed fsEmpty
      { camReady with rs_intrinsics := some intrSample }
      ("live") none none none) :=
  calibration_persists_exactly_two_files cvFound feIndexed fsEmpty camReady
    intrSample ("board3.png") 0 1 9 1 rfl rfl rfl rfl

end Camera
